import Mathlib

/-!
Shallow embedding of the OSM-Firefighter frontend view-refresh coordinator
and its navigation-axis components, translated from the TypeScript sources:

- graph-viewer.component.ts (final version): GraphViewerComponent with
  refreshView, openSimulationConfigDialog, createImageFromBlob
- turn-input.component.ts: TurnInputComponent with step and a debounced
  form-control change pipeline
- view-input.component.ts: ViewInputComponent with moveViewHorizontally,
  moveViewVertically
- zoom-input.component.ts: ZoomInputComponent with changeZoom
- meta-info-box.component.ts: MetaInfoBoxComponent with updateStepMetaData

JavaScript numbers are modelled as rationals; turn counters as integers.
Asynchronous fetches are modelled by ghost logs on the component state
(lists of issued requests) plus explicit completion events; the Angular
zone is single-threaded, so every handler is a pure state transformer.
-/

namespace Frontend

/-- Geographic coordinate pair, from view-input.component.ts (class Coordinates). -/
structure Coordinates where
  lat : ℚ
  lon : ℚ
deriving DecidableEq, Repr

/-- Arguments of one render fetch: graphservice.refreshView(turn, zoom, coord). -/
structure Snapshot where
  turn : ℤ
  zoom : ℚ
  coord : Coordinates
deriving DecidableEq, Repr

/-- StepMetaData from meta-info-box.component.ts. -/
structure StepMetaData where
  nodes_burned_at : List ℤ
  nodes_burned_by : ℤ
  nodes_defended_at : List ℤ
  nodes_defended_by : ℤ
deriving DecidableEq, Repr

/-- View bounds of SimulationMetaData (data/SimulationMetaData.ts). -/
structure ViewBounds where
  min_lon : ℚ
  max_lon : ℚ
  min_lat : ℚ
  max_lat : ℚ
deriving DecidableEq, Repr

/-- Response of the simulate call (data/SimulationMetaData.ts); view_center
is a two-element array [lat, lon], modelled as a Coordinates pair. -/
structure SimulationMetaData where
  end_time : ℤ
  view_center : Coordinates
  view_bounds : ViewBounds
deriving DecidableEq, Repr

/-- MetaInfoBoxComponent display state: turn and stepMeta are unset until the
first successful metadata fetch, hence Option. -/
structure MetaInfoBoxComponent where
  turn : Option ℤ
  stepMeta : Option StepMetaData
deriving DecidableEq, Repr

/-- On success, the subscription in updateStepMetaData stores the fetched-for
turn and the received data; there is no error callback in the source, so a
failed metadata fetch leaves the component untouched. -/
def MetaInfoBoxComponent.updateStepMetaDataDone (m : MetaInfoBoxComponent)
    (turnFetched : ℤ) (res : Except Unit StepMetaData) : MetaInfoBoxComponent :=
  match res with
  | .ok data => { m with turn := some turnFetched, stepMeta := some data }
  | .error _ => m

/-- TurnInputComponent state (turn-input.component.ts): maxTurn, currentTurn,
plus the timed raw values pushed through currentTurnFormControl.valueChanges
(time in milliseconds, value the raw turn). -/
structure TurnInputComponent where
  maxTurn : ℤ
  currentTurn : ℤ
  fcValueChanges : List (ℕ × ℤ)
deriving DecidableEq, Repr

/-- Raw user input into the turn field: the two-way binding writes
currentTurn at once and the form control records a timed value change. -/
def TurnInputComponent.setRaw (t : TurnInputComponent) (time : ℕ) (v : ℤ) :
    TurnInputComponent :=
  { t with currentTurn := v, fcValueChanges := t.fcValueChanges ++ [(time, v)] }

/-- TurnInputComponent.step from the source: a positive stepsize is capped at
maxTurn, a non-positive one is capped at 0; only currentTurn is written, the
form control is not touched. -/
def TurnInputComponent.step (t : TurnInputComponent) (stepsize : ℤ) :
    TurnInputComponent :=
  if stepsize > 0 then
    { t with currentTurn :=
        if t.currentTurn + stepsize ≤ t.maxTurn then t.currentTurn + stepsize
        else t.maxTurn }
  else
    { t with currentTurn :=
        if t.currentTurn + stepsize ≥ 0 then t.currentTurn + stepsize
        else 0 }

/-- ViewInputComponent state (view-input.component.ts), with the values pushed
into lonSubject and latSubject recorded as ghost logs. -/
structure ViewInputComponent where
  currentCoord : Coordinates
  maxCoord : Coordinates
  minCoord : Coordinates
  lonSubject : List ℚ
  latSubject : List ℚ
deriving DecidableEq, Repr

/-- ViewInputComponent.moveViewHorizontally: steps lon by one percent of the
lon range, but only when the stepped value stays inside the bound; the
resulting lon is always pushed into lonSubject. -/
def ViewInputComponent.moveViewHorizontally (v : ViewInputComponent)
    (moveRight : Bool) : ViewInputComponent :=
  let stepsize := (v.maxCoord.lon - v.minCoord.lon) / 100
  let v1 :=
    if moveRight then
      if v.currentCoord.lon + stepsize ≤ v.maxCoord.lon then
        { v with currentCoord := { v.currentCoord with lon := v.currentCoord.lon + stepsize } }
      else v
    else
      if v.currentCoord.lon - stepsize ≥ v.minCoord.lon then
        { v with currentCoord := { v.currentCoord with lon := v.currentCoord.lon - stepsize } }
      else v
  { v1 with lonSubject := v1.lonSubject ++ [v1.currentCoord.lon] }

/-- ViewInputComponent.moveViewVertically: the lat analogue. -/
def ViewInputComponent.moveViewVertically (v : ViewInputComponent)
    (moveUp : Bool) : ViewInputComponent :=
  let stepsize := (v.maxCoord.lat - v.minCoord.lat) / 100
  let v1 :=
    if moveUp then
      if v.currentCoord.lat + stepsize ≤ v.maxCoord.lat then
        { v with currentCoord := { v.currentCoord with lat := v.currentCoord.lat + stepsize } }
      else v
    else
      if v.currentCoord.lat - stepsize ≥ v.minCoord.lat then
        { v with currentCoord := { v.currentCoord with lat := v.currentCoord.lat - stepsize } }
      else v
  { v1 with latSubject := v1.latSubject ++ [v1.currentCoord.lat] }

/-- JavaScript Math.round: round half away from zero is half up for the
values produced here; on rationals, floor of x + 1/2. -/
def jsRound (q : ℚ) : ℤ := ⌊q + 1/2⌋

/-- ZoomInputComponent state (zoom-input.component.ts); currentZoom starts at 1. -/
structure ZoomInputComponent where
  currentZoom : ℚ
deriving DecidableEq, Repr

/-- ZoomInputComponent.changeZoom: stepped increments of 0.1 / 1 / 10 in the
bands below 10, below 20 and from 20 up, then rounded to two decimals via
Math.round(z * 100) / 100. -/
def ZoomInputComponent.changeZoom (z : ZoomInputComponent) (zoomIn : Bool) :
    ZoomInputComponent :=
  let c := z.currentZoom
  let c1 :=
    if c < 10 then (if zoomIn then c + 1/10 else c - 1/10)
    else if c < 20 then (if zoomIn then c + 1 else c - 1)
    else (if zoomIn then c + 10 else c - 10)
  { currentZoom := (jsRound (c1 * 100) : ℚ) / 100 }

/-- Zoom values reachable from the initial component state (currentZoom = 1)
by any sequence of changeZoom clicks. -/
inductive ZoomReachable : ZoomInputComponent → Prop where
  | init : ZoomReachable ⟨1⟩
  | step (zoomIn : Bool) {z : ZoomInputComponent} :
      ZoomReachable z → ZoomReachable (z.changeZoom zoomIn)

/-- The rxjs debounceTime operator on a timed event trace (time in
milliseconds, strictly before the next event's time): an event is emitted
with its value when no further event arrives within the window; the trace is
assumed quiescent after its last event, which is therefore emitted. -/
def debounceTime {α : Type} (w : ℕ) : List (ℕ × α) → List (ℕ × α)
  | [] => []
  | [e] => [e]
  | e1 :: e2 :: rest =>
    if e2.1 < e1.1 + w then debounceTime w (e2 :: rest)
    else e1 :: debounceTime w (e2 :: rest)

/-- The rxjs distinctUntilChanged operator, seeded with the previously
emitted value (none right after subscription, when the first value always
passes). -/
def distinctUntilChanged {α : Type} [DecidableEq α] :
    Option α → List α → List α
  | _, [] => []
  | last, a :: rest =>
    if last = some a then distinctUntilChanged last rest
    else a :: distinctUntilChanged (some a) rest

/-- The change notifications the turn input delivers for its recorded
form-control trace: the subscription body emits this.currentTurn once per
value that survives debounceTime(100) and distinctUntilChanged; in the
quiescent state modelled here currentTurn holds the last raw value. -/
def TurnInputComponent.notifications (t : TurnInputComponent)
    (lastEmitted : Option ℤ) : List ℤ :=
  (distinctUntilChanged lastEmitted
    ((debounceTime 100 t.fcValueChanges).map Prod.snd)).map
    (fun _ => t.currentTurn)

/-- A burst of raw inputs applied in order. -/
def TurnInputComponent.setRawSeq (t : TurnInputComponent) :
    List (ℕ × ℤ) → TurnInputComponent
  | [] => t
  | (time, v) :: rest => (t.setRaw time v).setRawSeq rest

/-- GraphViewerComponent (final source version): the coordinator flags, the
view-child components, the displayed thumbnail, and ghost logs of issued
fetches. outstanding holds the snapshots of render fetches currently in
flight (issued but not completed), renderFetches and metaFetches log every
issued render / metadata request, refreshFailures counts surfaced
refresh-failed signals. -/
structure GraphViewerComponent where
  refreshing : Bool
  pending : Bool
  activeSimulation : Bool
  turnInput : TurnInputComponent
  viewInput : ViewInputComponent
  zoomInput : ZoomInputComponent
  infoBox : MetaInfoBoxComponent
  thumbnail : Option Snapshot
  outstanding : List Snapshot
  renderFetches : List Snapshot
  metaFetches : List ℤ
  refreshFailures : ℕ
deriving DecidableEq, Repr

/-- The ViewState snapshot refreshView passes to graphservice.refreshView. -/
def GraphViewerComponent.viewSnapshot (s : GraphViewerComponent) : Snapshot :=
  ⟨s.turnInput.currentTurn, s.zoomInput.currentZoom, s.viewInput.currentCoord⟩

/-- GraphViewerComponent.refreshView, straight from the source: guarded by
activeSimulation; first invokes infoBox.updateStepMetaData(currentTurn)
(logged as an issued metadata fetch), then either issues a render fetch
(when not refreshing) or records the intent in pending. -/
def GraphViewerComponent.refreshView (s : GraphViewerComponent) :
    GraphViewerComponent :=
  if s.activeSimulation then
    let s1 := { s with metaFetches := s.turnInput.currentTurn :: s.metaFetches }
    if !s1.refreshing then
      { s1 with
        refreshing := true,
        outstanding := s1.viewSnapshot :: s1.outstanding,
        renderFetches := s1.viewSnapshot :: s1.renderFetches }
    else
      { s1 with pending := true }
  else s

/-- Completion of the oldest outstanding render fetch. Success: clear
refreshing, display the image for the completed snapshot, and when pending
was set, clear it and call refreshView again. Failure: clear refreshing and
surface one refresh-failed signal; the source error callback touches nothing
else. Completion with nothing outstanding cannot happen and is a no-op. -/
def GraphViewerComponent.renderDone (s : GraphViewerComponent)
    (res : Except Unit Unit) : GraphViewerComponent :=
  match s.outstanding with
  | [] => s
  | snap :: rest =>
    match res with
    | .ok _ =>
      let s1 := { s with refreshing := false, outstanding := rest,
                         thumbnail := some snap }
      if s1.pending then
        GraphViewerComponent.refreshView { s1 with pending := false }
      else s1
    | .error _ =>
      { s with refreshing := false, outstanding := rest,
               refreshFailures := s.refreshFailures + 1 }

/-- Completion of a metadata fetch: forwarded to the info box. -/
def GraphViewerComponent.metaDone (s : GraphViewerComponent) (turnFetched : ℤ)
    (res : Except Unit StepMetaData) : GraphViewerComponent :=
  { s with infoBox := s.infoBox.updateStepMetaDataDone turnFetched res }

/-- The continuation of openSimulationConfigDialog after the dialog returned a
config and graphservice.simulate succeeded: activate the session, reset turn
to 0, adopt bounds and center from the response, reset zoom to 1, then call
refreshView once. The source does not touch refreshing or pending here. -/
def GraphViewerComponent.simulateSuccess (s : GraphViewerComponent)
    (response : SimulationMetaData) : GraphViewerComponent :=
  let s1 := { s with
    activeSimulation := true,
    turnInput := { s.turnInput with currentTurn := 0, maxTurn := response.end_time },
    viewInput := { s.viewInput with
      currentCoord := response.view_center,
      maxCoord := ⟨response.view_bounds.max_lat, response.view_bounds.max_lon⟩,
      minCoord := ⟨response.view_bounds.min_lat, response.view_bounds.min_lon⟩ },
    zoomInput := { currentZoom := 1 } }
  s1.refreshView

/-- Events of the single-threaded Angular zone that touch the coordinator:
a committed axis change invoking refreshView, completions of the two fetch
kinds, direct navigation writes to the committed axis values, and a
confirmed configuration whose simulate call succeeded. -/
inductive GVEvent where
  | refresh
  | renderDone (res : Except Unit Unit)
  | metaDone (turnFetched : ℤ) (res : Except Unit StepMetaData)
  | navTurn (v : ℤ)
  | navZoom (v : ℚ)
  | navCoord (c : Coordinates)
  | configConfirmed (response : SimulationMetaData)

/-- One scheduler step. -/
def GraphViewerComponent.stepEvent (s : GraphViewerComponent) :
    GVEvent → GraphViewerComponent
  | .refresh => s.refreshView
  | .renderDone res => s.renderDone res
  | .metaDone t res => s.metaDone t res
  | .navTurn v => { s with turnInput := { s.turnInput with currentTurn := v } }
  | .navZoom v => { s with zoomInput := { currentZoom := v } }
  | .navCoord c => { s with viewInput := { s.viewInput with currentCoord := c } }
  | .configConfirmed r => s.simulateSuccess r

/-- Initial component state: all booleans falsy (undefined), counters zero,
no fetch issued, nothing displayed; zoom initialized to 1 by its component. -/
def GraphViewerComponent.init : GraphViewerComponent where
  refreshing := false
  pending := false
  activeSimulation := false
  turnInput := { maxTurn := 0, currentTurn := 0, fcValueChanges := [] }
  viewInput := { currentCoord := ⟨0, 0⟩, maxCoord := ⟨0, 0⟩, minCoord := ⟨0, 0⟩,
                 lonSubject := [], latSubject := [] }
  zoomInput := { currentZoom := 1 }
  infoBox := { turn := none, stepMeta := none }
  thumbnail := none
  outstanding := []
  renderFetches := []
  metaFetches := []
  refreshFailures := 0

/-- States reachable from component initialization under scheduler events. -/
inductive GVReachable : GraphViewerComponent → Prop where
  | init : GVReachable GraphViewerComponent.init
  | step {s : GraphViewerComponent} (e : GVEvent) :
      GVReachable s → GVReachable (s.stepEvent e)

/-- Single-flight state invariant: never more than one render fetch is
outstanding, and the refreshing flag tracks exactly whether one is. -/
def GVInv (s : GraphViewerComponent) : Prop :=
  s.outstanding.length ≤ 1 ∧ (s.refreshing = true ↔ s.outstanding ≠ [])

/-- Example simulate response used to build concrete scenario states. -/
def demoResponse : SimulationMetaData :=
  { end_time := 10, view_center := ⟨1, 2⟩,
    view_bounds := { min_lon := 0, max_lon := 5, min_lat := 0, max_lat := 5 } }

/-- State right after the first session start: one render fetch in flight. -/
def sessionStarted : GraphViewerComponent :=
  GraphViewerComponent.init.stepEvent (.configConfirmed demoResponse)

/-- The state after one refreshView call while the first fetch is in flight:
pending is set, no second render fetch issued. -/
def pendingInFlight : GraphViewerComponent := sessionStarted.stepEvent .refresh

/-- The snapshot of the render fetch issued at session start. -/
def snap0 : Snapshot := ⟨0, 1, ⟨1, 2⟩⟩

/-- Example metadata payload. -/
def demoMeta : StepMetaData := ⟨[1], 2, [3], 4⟩

/-- The state after the in-flight fetch of the fresh session succeeded. -/
def frameShown : GraphViewerComponent :=
  sessionStarted.stepEvent (.renderDone (.ok ()))


/-- Example view input: lon 99.9 inside bounds [0, 100], one percent stepsize 1. -/
def demoViewInput : ViewInputComponent :=
  { currentCoord := ⟨0, 999/10⟩, maxCoord := ⟨5, 100⟩, minCoord := ⟨0, 0⟩,
    lonSubject := [], latSubject := [] }

theorem refreshView_of_refreshing (s : GraphViewerComponent)
    (h : s.refreshing = true) :
    s.refreshView = if s.activeSimulation then
      { s with metaFetches := s.turnInput.currentTurn :: s.metaFetches,
               pending := true }
    else s := by
  simp only [GraphViewerComponent.refreshView, h]
  rfl

theorem refreshView_of_inactive (s : GraphViewerComponent)
    (h : s.activeSimulation = false) : s.refreshView = s := by
  simp [GraphViewerComponent.refreshView, h]

theorem refreshView_of_fresh (s : GraphViewerComponent)
    (ha : s.activeSimulation = true) (h : s.refreshing = false) :
    s.refreshView =
      { s with metaFetches := s.turnInput.currentTurn :: s.metaFetches,
               refreshing := true,
               outstanding := s.viewSnapshot :: s.outstanding,
               renderFetches := s.viewSnapshot :: s.renderFetches } := by
  simp only [GraphViewerComponent.refreshView, ha, h, if_true]
  rfl

theorem refreshView_renderFetches_le (s : GraphViewerComponent) :
    s.refreshView.renderFetches.length ≤ s.renderFetches.length + 1 := by
  by_cases ha : s.activeSimulation
  · by_cases hr : s.refreshing
    · rw [refreshView_of_refreshing s hr]
      simp only [ha, if_true]
      omega
    · rw [refreshView_of_fresh s ha (by simpa using hr)]
      simp only [List.length_cons, le_refl]
  · rw [refreshView_of_inactive s (by simpa using ha)]
    omega

theorem refreshView_inv {s : GraphViewerComponent} (h : GVInv s) :
    GVInv s.refreshView := by
  obtain ⟨h1, h2⟩ := h
  by_cases ha : s.activeSimulation
  · by_cases hr : s.refreshing
    · rw [refreshView_of_refreshing s hr]
      simp only [ha, if_true]
      exact ⟨h1, h2⟩
    · have hr' : s.refreshing = false := by simpa using hr
      have hout : s.outstanding = [] := by
        by_contra hne
        exact hr (h2.mpr hne)
      rw [refreshView_of_fresh s ha hr']
      constructor
      · simp [hout]
      · simp
  · rw [refreshView_of_inactive s (by simpa using ha)]
    exact ⟨h1, h2⟩

theorem renderDone_inv {s : GraphViewerComponent} (h : GVInv s)
    (res : Except Unit Unit) : GVInv (s.renderDone res) := by
  obtain ⟨h1, h2⟩ := h
  unfold GraphViewerComponent.renderDone
  cases hout : s.outstanding with
  | nil => exact ⟨h1, h2⟩
  | cons snap rest =>
    have hrest : rest = [] := by
      have := h1
      rw [hout] at this
      simpa using this
    subst hrest
    cases res with
    | ok u =>
      simp only
      split
      · apply refreshView_inv
        constructor
        · simp
        · simp
      · exact ⟨by simp, by simp⟩
    | error e => exact ⟨by simp, by simp⟩

theorem simulateSuccess_inv {s : GraphViewerComponent} (h : GVInv s)
    (r : SimulationMetaData) : GVInv (s.simulateSuccess r) := by
  apply refreshView_inv
  exact ⟨h.1, h.2⟩

theorem stepEvent_inv {s : GraphViewerComponent} (h : GVInv s) (e : GVEvent) :
    GVInv (s.stepEvent e) := by
  cases e with
  | refresh => exact refreshView_inv h
  | renderDone res => exact renderDone_inv h res
  | metaDone t res => exact ⟨h.1, h.2⟩
  | navTurn v => exact ⟨h.1, h.2⟩
  | navZoom v => exact ⟨h.1, h.2⟩
  | navCoord c => exact ⟨h.1, h.2⟩
  | configConfirmed r => exact simulateSuccess_inv h r

theorem reachable_inv {s : GraphViewerComponent} (h : GVReachable s) :
    GVInv s := by
  induction h with
  | init => exact ⟨by simp [GraphViewerComponent.init], by simp [GraphViewerComponent.init]⟩
  | step e _ ih => exact stepEvent_inv ih e

theorem refreshView_iter_of_refreshing (s : GraphViewerComponent)
    (ha : s.activeSimulation = true) (h : s.refreshing = true) (n : ℕ) :
    (GraphViewerComponent.refreshView)^[n] s =
      { s with metaFetches := (List.replicate n s.turnInput.currentTurn) ++ s.metaFetches,
               pending := if n = 0 then s.pending else true } := by
  induction n with
  | zero => simp
  | succ n ih =>
    rw [Function.iterate_succ_apply', ih]
    rw [refreshView_of_refreshing _ (by simp [h])]
    simp [ha, List.replicate_succ]

theorem renderDone_renderFetches_le (s : GraphViewerComponent)
    (res : Except Unit Unit) :
    (s.renderDone res).renderFetches.length ≤ s.renderFetches.length + 1 := by
  unfold GraphViewerComponent.renderDone
  cases hout : s.outstanding with
  | nil => exact Nat.le_succ _
  | cons snap rest =>
    cases res with
    | ok u =>
      simp only
      split
      · exact refreshView_renderFetches_le _
      · exact Nat.le_succ _
    | error e => exact Nat.le_succ _


/-- C1: at most one render fetch is outstanding in every reachable state;
a refreshView call made while one is in flight issues no render fetch and
only sets pending; and however many refreshView calls arrive during the
flight, its completion issues at most one follow-up render fetch. -/
theorem c1_single_flight :
    (∀ s : GraphViewerComponent, GVReachable s → s.outstanding.length ≤ 1) ∧
    (∀ s : GraphViewerComponent, s.refreshing = true →
      s.refreshView.renderFetches = s.renderFetches ∧
      s.refreshView.outstanding = s.outstanding ∧
      (s.activeSimulation = true → s.refreshView.pending = true)) ∧
    (∀ (s : GraphViewerComponent) (n : ℕ) (res : Except Unit Unit),
      s.activeSimulation = true → s.refreshing = true →
      (((GraphViewerComponent.refreshView)^[n] s).renderDone res).renderFetches.length ≤
        s.renderFetches.length + 1) := by
  refine ⟨?_, ?_, ?_⟩
  · intro s h
    exact (reachable_inv h).1
  · intro s h
    rw [refreshView_of_refreshing s h]
    by_cases ha : s.activeSimulation
    · simp [ha]
    · simp [ha]
  · intro s n res ha h
    rw [refreshView_iter_of_refreshing s ha h n]
    exact renderDone_renderFetches_le _ res

/-- C1 witness: the invariant, the no-new-fetch property and the bounded
follow-up, all at the concrete just-started session state. -/
theorem c1_single_flight_witness :
    sessionStarted.outstanding.length ≤ 1 ∧
    sessionStarted.refreshView.renderFetches = sessionStarted.renderFetches ∧
    (((GraphViewerComponent.refreshView)^[3] sessionStarted).renderDone
        (.ok ())).renderFetches.length ≤ sessionStarted.renderFetches.length + 1 :=
  ⟨c1_single_flight.1 sessionStarted (.step _ .init),
   (c1_single_flight.2.1 sessionStarted rfl).1,
   c1_single_flight.2.2 sessionStarted 3 (.ok ()) rfl rfl⟩

theorem refreshView_thumbnail (s : GraphViewerComponent) :
    s.refreshView.thumbnail = s.thumbnail := by
  by_cases ha : s.activeSimulation
  · by_cases hr : s.refreshing
    · rw [refreshView_of_refreshing s hr]
      simp [ha]
    · rw [refreshView_of_fresh s ha (by simpa using hr)]
  · rw [refreshView_of_inactive s (by simpa using ha)]

theorem metaDone_error (s : GraphViewerComponent) (t : ℤ) (e : Unit) :
    s.metaDone t (.error e) = s := rfl


/-- C2 counterexample: with a follow-up owed (pending = true), a failing
render fetch leaves pending set and issues no follow-up render fetch, against
the claim that failure clears pending and immediately issues one follow-up. -/
theorem c2_counterexample :
    pendingInFlight.pending = true ∧
    (pendingInFlight.stepEvent (.renderDone (.error ()))).pending = true ∧
    (pendingInFlight.stepEvent (.renderDone (.error ()))).renderFetches.length =
      pendingInFlight.renderFetches.length :=
  ⟨rfl, rfl, rfl⟩

/-- C2 amended: when the render fetch fails, the coordinator clears
refreshing, surfaces exactly one refresh-failed signal, and returns without
touching anything else: pending is left as it was and no follow-up render
fetch is issued by the failure handler. -/
theorem c2_failure_behavior :
    ∀ (s : GraphViewerComponent) (snap : Snapshot) (rest : List Snapshot)
      (e : Unit), s.outstanding = snap :: rest →
      (s.renderDone (.error e)).refreshing = false ∧
      (s.renderDone (.error e)).refreshFailures = s.refreshFailures + 1 ∧
      (s.renderDone (.error e)).pending = s.pending ∧
      (s.renderDone (.error e)).renderFetches = s.renderFetches ∧
      (s.renderDone (.error e)).metaFetches = s.metaFetches ∧
      (s.renderDone (.error e)).outstanding = rest ∧
      (s.renderDone (.error e)).thumbnail = s.thumbnail := by
  intro s snap rest e hout
  unfold GraphViewerComponent.renderDone
  rw [hout]
  exact ⟨rfl, rfl, rfl, rfl, rfl, rfl, rfl⟩

/-- C2 witness: the failure bookkeeping at the concrete in-flight state. -/
theorem c2_failure_behavior_witness :
    (pendingInFlight.renderDone (.error ())).refreshing = false ∧
    (pendingInFlight.renderDone (.error ())).refreshFailures =
      pendingInFlight.refreshFailures + 1 ∧
    (pendingInFlight.renderDone (.error ())).pending = pendingInFlight.pending ∧
    (pendingInFlight.renderDone (.error ())).renderFetches =
      pendingInFlight.renderFetches ∧
    (pendingInFlight.renderDone (.error ())).metaFetches =
      pendingInFlight.metaFetches ∧
    (pendingInFlight.renderDone (.error ())).outstanding = [] ∧
    (pendingInFlight.renderDone (.error ())).thumbnail =
      pendingInFlight.thumbnail :=
  c2_failure_behavior pendingInFlight snap0 [] () rfl

/-- C3 counterexample: confirming a new configuration while the previous
session still has a fetch in flight leaves refreshing = true and sets
pending = true; the coordinator flags are not reset to {false, false}. -/
theorem c3_counterexample :
    (sessionStarted.stepEvent (.configConfirmed demoResponse)).refreshing = true ∧
    (sessionStarted.stepEvent (.configConfirmed demoResponse)).pending = true :=
  ⟨rfl, rfl⟩

/-- C3 amended: on a successful simulate response the session activates, turn
is reset to 0, bounds and center come from the response, zoom is reset to 1,
and exactly one refreshView call is triggered (one metadata fetch; a render
fetch only when none was in flight, otherwise the call just sets pending).
The refreshing/pending flags are not reset. -/
theorem c3_session_start :
    ∀ (s : GraphViewerComponent) (r : SimulationMetaData),
      (s.simulateSuccess r).activeSimulation = true ∧
      (s.simulateSuccess r).turnInput.currentTurn = 0 ∧
      (s.simulateSuccess r).turnInput.maxTurn = r.end_time ∧
      (s.simulateSuccess r).viewInput.currentCoord = r.view_center ∧
      (s.simulateSuccess r).viewInput.maxCoord =
        ⟨r.view_bounds.max_lat, r.view_bounds.max_lon⟩ ∧
      (s.simulateSuccess r).viewInput.minCoord =
        ⟨r.view_bounds.min_lat, r.view_bounds.min_lon⟩ ∧
      (s.simulateSuccess r).zoomInput.currentZoom = 1 ∧
      (s.simulateSuccess r).metaFetches = 0 :: s.metaFetches ∧
      (s.simulateSuccess r).refreshing = true ∧
      (s.simulateSuccess r).pending = (if s.refreshing then true else s.pending) ∧
      (s.simulateSuccess r).renderFetches =
        (if s.refreshing then s.renderFetches
         else ⟨0, 1, r.view_center⟩ :: s.renderFetches) := by
  intro s r
  unfold GraphViewerComponent.simulateSuccess
  by_cases hr : s.refreshing
  · rw [refreshView_of_refreshing _ (by simpa using hr)]
    simp [hr, GraphViewerComponent.viewSnapshot]
  · rw [refreshView_of_fresh _ rfl (by simpa using hr)]
    simp [hr, GraphViewerComponent.viewSnapshot]

/-- C6: the metadata fetch of a refresh cycle carries the same turn as the
render fetch of that cycle; a failed metadata fetch changes none of the
coordinator bookkeeping; and after a failed metadata fetch the in-flight
render fetch still completes and updates the displayed image. -/
theorem c6_metadata_same_cycle :
    (∀ s : GraphViewerComponent, s.activeSimulation = true →
      s.refreshing = false →
      s.refreshView.renderFetches.head? = some s.viewSnapshot ∧
      s.refreshView.metaFetches.head? = some s.viewSnapshot.turn) ∧
    (∀ (s : GraphViewerComponent) (t : ℤ) (e : Unit),
      (s.metaDone t (.error e)).refreshing = s.refreshing ∧
      (s.metaDone t (.error e)).pending = s.pending ∧
      (s.metaDone t (.error e)).outstanding = s.outstanding ∧
      (s.metaDone t (.error e)).thumbnail = s.thumbnail) ∧
    (∀ (s : GraphViewerComponent) (snap : Snapshot) (rest : List Snapshot)
      (t : ℤ) (e : Unit), s.outstanding = snap :: rest →
      ((s.metaDone t (.error e)).renderDone (.ok ())).thumbnail = some snap) := by
  refine ⟨?_, ?_, ?_⟩
  · intro s ha hr
    rw [refreshView_of_fresh s ha hr]
    exact ⟨rfl, rfl⟩
  · intro s t e
    rw [metaDone_error]
    exact ⟨rfl, rfl, rfl, rfl⟩
  · intro s snap rest t e hout
    rw [metaDone_error]
    unfold GraphViewerComponent.renderDone
    rw [hout]
    simp only
    split
    · exact refreshView_thumbnail _
    · rfl

/-- C6 witness: same-turn snapshot at the idle active state, and a failed
metadata fetch that leaves the concrete in-flight refresh able to complete
and display its frame. -/
theorem c6_metadata_same_cycle_witness :
    (frameShown.refreshView.renderFetches.head? = some frameShown.viewSnapshot ∧
     frameShown.refreshView.metaFetches.head? =
       some frameShown.viewSnapshot.turn) ∧
    ((sessionStarted.metaDone 0 (.error ())).renderDone (.ok ())).thumbnail =
      some snap0 :=
  ⟨c6_metadata_same_cycle.1 frameShown rfl rfl,
   c6_metadata_same_cycle.2.2 sessionStarted snap0 [] 0 () rfl⟩

/-- C7 counterexample: with committed turn 3, a late metadata response fetched
for turn 2 is not discarded: it overwrites the displayed data and key. -/
theorem c7_counterexample :
    (sessionStarted.stepEvent (.navTurn 3)).turnInput.currentTurn = 3 ∧
    ((sessionStarted.stepEvent (.navTurn 3)).metaDone 2
        (.ok demoMeta)).infoBox.stepMeta = some demoMeta ∧
    ((sessionStarted.stepEvent (.navTurn 3)).metaDone 2
        (.ok demoMeta)).infoBox.turn = some 2 ∧
    (2 : ℤ) ≠ 3 :=
  ⟨rfl, rfl, rfl, by decide⟩

/-- C7 amended: the displayed metadata is keyed by the turn it was fetched
for (the info box stores that turn next to the data), but a successful
response is never discarded: it updates the display unconditionally, even
when the fetched-for turn differs from the currently committed turn. -/
theorem c7_metadata_keyed_unconditional :
    ∀ (s : GraphViewerComponent) (t : ℤ) (d : StepMetaData),
      (s.metaDone t (.ok d)).infoBox.turn = some t ∧
      (s.metaDone t (.ok d)).infoBox.stepMeta = some d ∧
      (s.metaDone t (.ok d)).turnInput = s.turnInput := by
  intro s t d
  exact ⟨rfl, rfl, rfl⟩

/-- C8 counterexample: with no active session, refreshView returns silently
with the state unchanged; no fetch is issued and no error or assertion is
raised, against the claim that it fails fast. -/
theorem c8_counterexample :
    GraphViewerComponent.init.activeSimulation = false ∧
    GraphViewerComponent.init.refreshView = GraphViewerComponent.init :=
  ⟨rfl, refreshView_of_inactive _ rfl⟩

/-- C8 amended: calling refreshView with no active session is a silent no-op:
the activeSimulation guard returns without issuing a fetch, modifying any
state, or raising an error. -/
theorem c8_inactive_silent_noop :
    ∀ s : GraphViewerComponent, s.activeSimulation = false →
      s.refreshView = s := by
  intro s h
  exact refreshView_of_inactive s h

/-- C8 witness: the no-op at the initial (inactive) state. -/
theorem c8_inactive_silent_noop_witness :
    GraphViewerComponent.init.refreshView = GraphViewerComponent.init :=
  c8_inactive_silent_noop GraphViewerComponent.init rfl

/-- C10: every refreshView invocation in an active session issues exactly one
metadata fetch for the current turn, before and regardless of the
single-flight check, so coalesced invocations still fetch metadata and the
metadata fetch count can exceed the render fetch count, as in the concrete
reachable state after one coalesced call. -/
theorem c10_metadata_every_invocation :
    (∀ s : GraphViewerComponent, s.activeSimulation = true →
      s.refreshView.metaFetches = s.turnInput.currentTurn :: s.metaFetches ∧
      (s.refreshing = true → s.refreshView.renderFetches = s.renderFetches)) ∧
    (GVReachable pendingInFlight ∧
      pendingInFlight.renderFetches.length <
        pendingInFlight.metaFetches.length) := by
  refine ⟨?_, ⟨.step _ (.step _ .init), by decide⟩⟩
  intro s ha
  by_cases hr : s.refreshing
  · rw [refreshView_of_refreshing s hr]
    simp [ha, hr]
  · rw [refreshView_of_fresh s ha (by simpa using hr)]
    simp [hr]

/-- C10 witness: exactly one metadata fetch issued by the coalesced call at
the concrete in-flight state. -/
theorem c10_metadata_every_invocation_witness :
    sessionStarted.refreshView.metaFetches =
      sessionStarted.turnInput.currentTurn :: sessionStarted.metaFetches ∧
    sessionStarted.refreshView.renderFetches = sessionStarted.renderFetches :=
  ⟨(c10_metadata_every_invocation.1 sessionStarted rfl).1,
   (c10_metadata_every_invocation.1 sessionStarted rfl).2 rfl⟩

theorem debounceTime_burst {α : Type} (w : ℕ) :
    ∀ (l : List (ℕ × α)) (h : l ≠ []),
      l.Chain' (fun e1 e2 => e2.1 < e1.1 + w) →
      debounceTime w l = [l.getLast h] := by
  intro l
  induction l with
  | nil => intro h; exact absurd rfl h
  | cons a rest ih =>
    intro _ hchain
    cases rest with
    | nil => rfl
    | cons b rest2 =>
      rw [List.chain'_cons] at hchain
      have hne : b :: rest2 ≠ [] := List.cons_ne_nil b rest2
      rw [List.getLast_cons hne]
      show (if b.1 < a.1 + w then debounceTime w (b :: rest2)
            else a :: debounceTime w (b :: rest2)) = _
      rw [if_pos hchain.1]
      exact ih hne hchain.2

theorem distinctUntilChanged_single {α : Type} [DecidableEq α]
    (last : Option α) (a : α) :
    distinctUntilChanged last [a] =
      if last = some a then [] else [a] := by
  unfold distinctUntilChanged
  split
  · rfl
  · rfl

theorem setRawSeq_fcValueChanges (t : TurnInputComponent)
    (evs : List (ℕ × ℤ)) :
    (t.setRawSeq evs).fcValueChanges = t.fcValueChanges ++ evs := by
  induction evs generalizing t with
  | nil => simp [TurnInputComponent.setRawSeq]
  | cons e rest ih =>
    obtain ⟨time, v⟩ := e
    show ((t.setRaw time v).setRawSeq rest).fcValueChanges = _
    rw [ih]
    simp [TurnInputComponent.setRaw]

theorem setRawSeq_currentTurn (t : TurnInputComponent)
    (evs : List (ℕ × ℤ)) (h : evs ≠ []) :
    (t.setRawSeq evs).currentTurn = (evs.getLast h).2 := by
  induction evs generalizing t with
  | nil => exact absurd rfl h
  | cons e rest ih =>
    obtain ⟨time, v⟩ := e
    cases rest with
    | nil => rfl
    | cons e2 rest2 =>
      have hne : e2 :: rest2 ≠ [] := List.cons_ne_nil e2 rest2
      show ((t.setRaw time v).setRawSeq (e2 :: rest2)).currentTurn = _
      rw [ih _ hne, List.getLast_cons hne]

/-- C5: all raw turn inputs arriving within one debounce window commit only
the last value, firing at most one notification, and none at all when that
value equals the previously emitted one; and step(+1) at turn = maxTurn
leaves the component state entirely unchanged (clamped value, no
form-control event), so no refresh is triggered. -/
theorem c5_debounce_idempotence :
    (∀ (t0 : TurnInputComponent) (evs : List (ℕ × ℤ))
      (lastEmitted : Option ℤ) (hne : evs ≠ []),
      t0.fcValueChanges = [] →
      evs.Chain' (fun e1 e2 => e2.1 < e1.1 + 100) →
      (t0.setRawSeq evs).currentTurn = (evs.getLast hne).2 ∧
      (t0.setRawSeq evs).notifications lastEmitted =
        (if lastEmitted = some (evs.getLast hne).2 then []
         else [(evs.getLast hne).2]) ∧
      ((t0.setRawSeq evs).notifications lastEmitted).length ≤ 1) ∧
    (∀ t : TurnInputComponent, t.currentTurn = t.maxTurn → t.step 1 = t) := by
  constructor
  · intro t0 evs lastEmitted hne h0 hchain
    have hcur : (t0.setRawSeq evs).currentTurn = (evs.getLast hne).2 :=
      setRawSeq_currentTurn t0 evs hne
    have hfc : (t0.setRawSeq evs).fcValueChanges = evs := by
      rw [setRawSeq_fcValueChanges, h0, List.nil_append]
    have hnot : (t0.setRawSeq evs).notifications lastEmitted =
        (if lastEmitted = some (evs.getLast hne).2 then []
         else [(evs.getLast hne).2]) := by
      unfold TurnInputComponent.notifications
      rw [hfc, debounceTime_burst 100 evs hne hchain]
      rw [List.map_singleton, distinctUntilChanged_single]
      split
      · rfl
      · rw [List.map_singleton, hcur]
    refine ⟨hcur, hnot, ?_⟩
    rw [hnot]
    split
    · simp
    · simp
  · intro t h
    obtain ⟨mx, c, fc⟩ := t
    simp only at h
    subst h
    unfold TurnInputComponent.step
    rw [if_pos (by omega : (1 : ℤ) > 0)]
    rw [if_neg (by omega : ¬(c + 1 ≤ c))]

/-- C5 witness: a three-event burst into the fresh turn input commits only
the final value 6 with a single notification, and step(+1) at the maximum
turn is a complete no-op. -/
theorem c5_debounce_idempotence_witness :
    (TurnInputComponent.setRawSeq ⟨10, 0, []⟩ [(0, 5), (50, 6), (90, 6)]).currentTurn = 6 ∧
    (TurnInputComponent.setRawSeq ⟨10, 0, []⟩ [(0, 5), (50, 6), (90, 6)]).notifications (some 0) = [6] ∧
    TurnInputComponent.step ⟨10, 10, []⟩ 1 = ⟨10, 10, []⟩ := by
  have h := c5_debounce_idempotence.1 ⟨10, 0, []⟩ [(0, 5), (50, 6), (90, 6)]
    (some 0) (by decide) rfl (by simp [List.chain'_cons])
  refine ⟨h.1, ?_, c5_debounce_idempotence.2 ⟨10, 10, []⟩ rfl⟩
  rw [h.2.1]
  decide


/-- C4 counterexample: moving right from lon 99.9 with bounds [0, 100] and
stepsize 1 would overshoot, and the committed value stays 99.9 — it is not
set to the nearest bound 100 as the claim states. -/
theorem c4_counterexample :
    demoViewInput.maxCoord.lon <
      demoViewInput.currentCoord.lon +
        (demoViewInput.maxCoord.lon - demoViewInput.minCoord.lon) / 100 ∧
    (demoViewInput.moveViewHorizontally true).currentCoord.lon = 999/10 ∧
    (999/10 : ℚ) ≠ demoViewInput.maxCoord.lon ∧
    (999/10 : ℚ) ≠ demoViewInput.minCoord.lon := by
  refine ⟨by norm_num [demoViewInput], ?_, by norm_num [demoViewInput],
    by norm_num [demoViewInput]⟩
  norm_num [demoViewInput, ViewInputComponent.moveViewHorizontally]

/-- C4 amended: TurnInputComponent.step clamps an out-of-range target to the
nearest bound and commits immediately without any form-control (debounced)
event; ViewInputComponent.moveViewHorizontally / moveViewVertically instead
refuse a move whose stepped value would cross the bound, leaving the
coordinate unchanged (not snapped to the bound), also immediately. -/
theorem c4_clamping :
    (∀ (t : TurnInputComponent) (d : ℤ),
      0 ≤ t.currentTurn → t.currentTurn ≤ t.maxTurn →
      (t.step d).currentTurn = max 0 (min t.maxTurn (t.currentTurn + d)) ∧
      (t.step d).fcValueChanges = t.fcValueChanges) ∧
    (∀ v : ViewInputComponent,
      v.maxCoord.lon < v.currentCoord.lon + (v.maxCoord.lon - v.minCoord.lon) / 100 →
      (v.moveViewHorizontally true).currentCoord = v.currentCoord) ∧
    (∀ v : ViewInputComponent,
      v.currentCoord.lon - (v.maxCoord.lon - v.minCoord.lon) / 100 < v.minCoord.lon →
      (v.moveViewHorizontally false).currentCoord = v.currentCoord) ∧
    (∀ v : ViewInputComponent,
      v.maxCoord.lat < v.currentCoord.lat + (v.maxCoord.lat - v.minCoord.lat) / 100 →
      (v.moveViewVertically true).currentCoord = v.currentCoord) ∧
    (∀ v : ViewInputComponent,
      v.currentCoord.lat - (v.maxCoord.lat - v.minCoord.lat) / 100 < v.minCoord.lat →
      (v.moveViewVertically false).currentCoord = v.currentCoord) := by
  refine ⟨?_, ?_, ?_, ?_, ?_⟩
  · intro t d h0 hm
    unfold TurnInputComponent.step
    by_cases hd : d > 0
    · rw [if_pos hd]
      by_cases hle : t.currentTurn + d ≤ t.maxTurn
      · rw [if_pos hle]
        refine ⟨?_, rfl⟩
        rw [min_eq_right hle, max_eq_right (by omega)]
      · rw [if_neg hle]
        refine ⟨?_, rfl⟩
        rw [min_eq_left (by omega), max_eq_right (by omega)]
    · rw [if_neg hd]
      by_cases hge : t.currentTurn + d ≥ 0
      · rw [if_pos hge]
        refine ⟨?_, rfl⟩
        rw [min_eq_right (by omega), max_eq_right (by omega)]
      · rw [if_neg hge]
        refine ⟨?_, rfl⟩
        rw [min_eq_right (by omega), max_eq_left (by omega)]
  · intro v h
    unfold ViewInputComponent.moveViewHorizontally
    simp only [if_true]
    rw [if_neg (by rw [not_le]; exact h)]
  · intro v h
    unfold ViewInputComponent.moveViewHorizontally
    simp only [Bool.false_eq_true, if_false]
    rw [if_neg (by rw [ge_iff_le, not_le]; exact h)]
  · intro v h
    unfold ViewInputComponent.moveViewVertically
    simp only [if_true]
    rw [if_neg (by rw [not_le]; exact h)]
  · intro v h
    unfold ViewInputComponent.moveViewVertically
    simp only [Bool.false_eq_true, if_false]
    rw [if_neg (by rw [ge_iff_le, not_le]; exact h)]

/-- C4 witness: step over the top clamps to maxTurn with no event, and the
overshooting rightward move keeps the coordinate unchanged. -/
theorem c4_clamping_witness :
    (TurnInputComponent.step ⟨10, 8, []⟩ 5).currentTurn =
      max 0 (min (10 : ℤ) (8 + 5)) ∧
    (demoViewInput.moveViewHorizontally true).currentCoord =
      demoViewInput.currentCoord :=
  ⟨(c4_clamping.1 ⟨10, 8, []⟩ 5 (by decide) (by decide)).1,
   c4_clamping.2.1 demoViewInput (by norm_num [demoViewInput])⟩

/-- C9 counterexample: ten zoom-out clicks from the initial zoom 1 walk down
0.9, 0.8, ..., 0.1 to exactly 0, a reachable zoom value that is not strictly
positive; changeZoom has no lower bound check. -/
theorem c9_counterexample :
    ZoomReachable ⟨0⟩ ∧ ¬(0 : ℚ) > 0 := by
  refine ⟨?_, by norm_num⟩
  have h1 : ZoomInputComponent.changeZoom ⟨1⟩ false = ⟨9/10⟩ := by
    norm_num [ZoomInputComponent.changeZoom, jsRound]
  have h2 : ZoomInputComponent.changeZoom ⟨9/10⟩ false = ⟨4/5⟩ := by
    norm_num [ZoomInputComponent.changeZoom, jsRound]
  have h3 : ZoomInputComponent.changeZoom ⟨4/5⟩ false = ⟨7/10⟩ := by
    norm_num [ZoomInputComponent.changeZoom, jsRound]
  have h4 : ZoomInputComponent.changeZoom ⟨7/10⟩ false = ⟨3/5⟩ := by
    norm_num [ZoomInputComponent.changeZoom, jsRound]
  have h5 : ZoomInputComponent.changeZoom ⟨3/5⟩ false = ⟨1/2⟩ := by
    norm_num [ZoomInputComponent.changeZoom, jsRound]
  have h6 : ZoomInputComponent.changeZoom ⟨1/2⟩ false = ⟨2/5⟩ := by
    norm_num [ZoomInputComponent.changeZoom, jsRound]
  have h7 : ZoomInputComponent.changeZoom ⟨2/5⟩ false = ⟨3/10⟩ := by
    norm_num [ZoomInputComponent.changeZoom, jsRound]
  have h8 : ZoomInputComponent.changeZoom ⟨3/10⟩ false = ⟨1/5⟩ := by
    norm_num [ZoomInputComponent.changeZoom, jsRound]
  have h9 : ZoomInputComponent.changeZoom ⟨1/5⟩ false = ⟨1/10⟩ := by
    norm_num [ZoomInputComponent.changeZoom, jsRound]
  have h10 : ZoomInputComponent.changeZoom ⟨1/10⟩ false = ⟨0⟩ := by
    norm_num [ZoomInputComponent.changeZoom, jsRound]
  have r1 : ZoomReachable ⟨9/10⟩ := h1 ▸ ZoomReachable.step false ZoomReachable.init
  have r2 : ZoomReachable ⟨4/5⟩ := h2 ▸ ZoomReachable.step false r1
  have r3 : ZoomReachable ⟨7/10⟩ := h3 ▸ ZoomReachable.step false r2
  have r4 : ZoomReachable ⟨3/5⟩ := h4 ▸ ZoomReachable.step false r3
  have r5 : ZoomReachable ⟨1/2⟩ := h5 ▸ ZoomReachable.step false r4
  have r6 : ZoomReachable ⟨2/5⟩ := h6 ▸ ZoomReachable.step false r5
  have r7 : ZoomReachable ⟨3/10⟩ := h7 ▸ ZoomReachable.step false r6
  have r8 : ZoomReachable ⟨1/5⟩ := h8 ▸ ZoomReachable.step false r7
  have r9 : ZoomReachable ⟨1/10⟩ := h9 ▸ ZoomReachable.step false r8
  exact h10 ▸ ZoomReachable.step false r9

/-- C9 amended: a zoom-in click always preserves strict positivity (so every
zoom value reachable from 1 by zoom-in clicks alone stays positive), but
zoom-out clicks have no lower bound: zoom 0 is reachable, violating the
stated zoom strictly-positive invariant. -/
theorem c9_zoom_in_positive :
    ∀ z : ZoomInputComponent, 0 < z.currentZoom →
      0 < (z.changeZoom true).currentZoom := by
  have key : ∀ q : ℚ, 1/2 ≤ q → 0 < ((jsRound q : ℚ) / 100) := by
    intro q hq
    have h1 : (1 : ℤ) ≤ jsRound q := by
      rw [jsRound, Int.le_floor]
      push_cast
      linarith
    have h2 : (1 : ℚ) ≤ (jsRound q : ℚ) := by exact_mod_cast h1
    linarith
  intro z hz
  unfold ZoomInputComponent.changeZoom
  simp only [if_true]
  by_cases hlt : z.currentZoom < 10
  · rw [if_pos hlt]
    exact key _ (by nlinarith)
  · rw [if_neg hlt]
    by_cases hlt2 : z.currentZoom < 20
    · rw [if_pos hlt2]
      exact key _ (by nlinarith)
    · rw [if_neg hlt2]
      exact key _ (by nlinarith)

/-- C9 witness: positivity preserved at the initial zoom value 1. -/
theorem c9_zoom_in_positive_witness :
    0 < (ZoomInputComponent.changeZoom ⟨1⟩ true).currentZoom :=
  c9_zoom_in_positive ⟨1⟩ (by norm_num)

end Frontend
